import Mathlib

/-!
# Verification of the lens abstraction of `src/lenses/index.spec.ts`

Shallow embedding of the lens data model and the concrete lenses of the
repository.  JavaScript numbers are modelled as exact rationals (all the
arithmetic the code performs on them — `*`, `/`, `+`, `-`, `Math.round` —
is exact on the integer and small-rational inputs the claims range over),
and `Math.round x` is modelled as `⌊x + 1/2⌋` (round half toward +∞),
matching ECMAScript semantics.
-/

namespace Lenses

/-- `Lens<R, W>`: a record of a getter `W → R` and a setter `R → W → W`
(`interface Lens<R, W> { get: Getter<R, W>; set: Setter<R, W> }`). -/
structure Lens (R W : Type) where
  get : W → R
  set : R → W → W

/-- `function lens<R, W>(get, set) { return { get, set }; }` -/
def lens {R W : Type} (get : W → R) (set : R → W → W) : Lens R W :=
  { get := get, set := set }

/-- `function compose<U, V, W>(lens2: Lens<V, W>, lens1: Lens<U, V>): Lens<U, W>`:
`get: object => lens1.get(lens2.get(object))`,
`set: (value, object) => lens2.set(lens1.set(value, lens2.get(object)), object)`. -/
def compose {U V W : Type} (lens2 : Lens V W) (lens1 : Lens U V) : Lens U W :=
  { get := fun object => lens1.get (lens2.get object)
    set := fun value object => lens2.set (lens1.set value (lens2.get object)) object }

/-- Lens law GetSet: setting back what you just read changes nothing. -/
def GetSet {R W : Type} (l : Lens R W) : Prop :=
  ∀ w : W, l.set (l.get w) w = w

/-- Lens law SetGet: what you set is what you get back. -/
def SetGet {R W : Type} (l : Lens R W) : Prop :=
  ∀ (r : R) (w : W), l.get (l.set r w) = r

/-- Lens law SetSet: the last set wins. -/
def SetSet {R W : Type} (l : Lens R W) : Prop :=
  ∀ (r₁ r₂ : R) (w : W), l.set r₂ (l.set r₁ w) = l.set r₂ w

/-- JavaScript number, modelled as an exact rational. -/
abbrev JSNumber := ℚ

/-- `Math.round`: round half toward +∞, i.e. `⌊x + 1/2⌋`, as a rational. -/
def jsRound (x : JSNumber) : JSNumber := (⌊x + 1/2⌋ : ℤ)

abbrev TemperatureInCelcius := JSNumber
abbrev TemperatureInFahrenheit := JSNumber
abbrev WindInMetersPerSecond := JSNumber

/-- `interface StandardWeather { cTemperature; wind }` -/
structure StandardWeather where
  cTemperature : TemperatureInCelcius
  wind : WindInMetersPerSecond
deriving DecidableEq

/-- `function getTemperature({ cTemperature }: StandardWeather)` -/
def getTemperature (weather : StandardWeather) : TemperatureInCelcius :=
  weather.cTemperature

/-- `function setTemperature(cTemperature, weather) { return { ...weather, cTemperature }; }` -/
def setTemperature (cTemperature : TemperatureInCelcius) (weather : StandardWeather) :
    StandardWeather :=
  { weather with cTemperature := cTemperature }

/-- `const temperatureLens = lens(getTemperature, setTemperature)` (first test). -/
def temperatureLens : Lens TemperatureInCelcius StandardWeather :=
  lens getTemperature setTemperature

/-- `const celciusTemperatureLens = lens(getTemperature, setTemperature)`
(second test; same definition as `temperatureLens`). -/
def celciusTemperatureLens : Lens TemperatureInCelcius StandardWeather :=
  lens getTemperature setTemperature

/-- `celciusToFahrenheit(c) = Math.round((c * 9) / 5 + 32)` -/
def celciusToFahrenheit (cTemperature : TemperatureInCelcius) : TemperatureInFahrenheit :=
  jsRound (cTemperature * 9 / 5 + 32)

/-- `fahrenheitToCelcius(f) = Math.round(((f - 32) * 5) / 9)` -/
def fahrenheitToCelcius (fTemperature : TemperatureInFahrenheit) : TemperatureInCelcius :=
  jsRound ((fTemperature - 32) * 5 / 9)

/-- `const fahrenheitToCelciusLens = lens(celciusToFahrenheit, fahrenheitToCelcius)`.
The setter `fahrenheitToCelcius` takes one argument in the source and ignores
the extra `whole` argument JavaScript passes it. -/
def fahrenheitToCelciusLens : Lens TemperatureInFahrenheit TemperatureInCelcius :=
  lens celciusToFahrenheit (fun fTemperature _ => fahrenheitToCelcius fTemperature)

/-- `const fahrenheitTemperatureLens = compose(celciusTemperatureLens, fahrenheitToCelciusLens)` -/
def fahrenheitTemperatureLens : Lens TemperatureInFahrenheit StandardWeather :=
  compose celciusTemperatureLens fahrenheitToCelciusLens

abbrev FirstName := String
abbrev LastName := String

/-- `interface Name { firstName; lastName }` -/
structure Name where
  firstName : FirstName
  lastName : LastName
deriving DecidableEq

/-- JavaScript `Date`, identified by the string it was constructed from
(the claims only compare dates built from the same string). -/
structure Date where
  ofString : String
deriving DecidableEq

abbrev DateOfBirth := Date

/-- `interface Identity { name; dateOfBirth }` -/
structure Identity where
  name : Name
  dateOfBirth : DateOfBirth
deriving DecidableEq

/-- `const nameLens = lens(({ name }) => name, (name, identity) => ({ ...identity, name }))` -/
def nameLens : Lens Name Identity :=
  lens (fun identity => identity.name) (fun name identity => { identity with name := name })

/-- `const firstNameLens = lens(({ firstName }) => firstName,
(firstName, name) => ({ ...name, firstName }))` -/
def firstNameLens : Lens FirstName Name :=
  lens (fun name => name.firstName) (fun firstName name => { name with firstName := firstName })

/-- `const firstNameFromIdentityLens = compose(nameLens, firstNameLens)` -/
def firstNameFromIdentityLens : Lens FirstName Identity :=
  compose nameLens firstNameLens

/-- `const identity = { name: { firstName: "Francis", lastName: "Underwood" },
dateOfBirth: new Date("November 5, 1959") }` -/
def identity : Identity :=
  { name := { firstName := "Francis", lastName := "Underwood" }
    dateOfBirth := { ofString := "November 5, 1959" } }

/-- `const standardWeather = { cTemperature: 0, wind: 0 }` -/
def standardWeather : StandardWeather :=
  { cTemperature := 0, wind := 0 }

/-- `Math.round x` lies within half a unit of `x`:
`x - 1/2 < jsRound x` and `jsRound x ≤ x + 1/2`. -/
theorem jsRound_bounds (x : JSNumber) : x - 1/2 < jsRound x ∧ jsRound x ≤ x + 1/2 := by
  unfold jsRound
  constructor
  · have h := Int.sub_one_lt_floor (x + 1/2)
    linarith
  · exact Int.floor_le (x + 1/2)

/-- Claim C1: for every pair of lenses `outer : Lens V W` and `inner : Lens U V`
and every `wholeA : W`, the lens returned by `compose outer inner` satisfies
`composed.get wholeA = inner.get (outer.get wholeA)`. -/
theorem compose_get_correct {U V W : Type} (outer : Lens V W) (inner : Lens U V) (wholeA : W) :
    (compose outer inner).get wholeA = inner.get (outer.get wholeA) :=
  rfl

/-- Claim C2: for every pair of lenses `outer : Lens V W` and `inner : Lens U V`,
every `focusB : U` and every `wholeA : W`, the lens returned by
`compose outer inner` satisfies
`composed.set focusB wholeA = outer.set (inner.set focusB (outer.get wholeA)) wholeA`. -/
theorem compose_set_correct {U V W : Type} (outer : Lens V W) (inner : Lens U V)
    (focusB : U) (wholeA : W) :
    (compose outer inner).set focusB wholeA =
      outer.set (inner.set focusB (outer.get wholeA)) wholeA :=
  rfl

/-- Claim C3: whenever `outer` and `inner` each satisfy the three lens laws for
all of their inputs, `compose outer inner` satisfies all three laws for all of
its inputs. -/
theorem compose_preserves_laws {U V W : Type} (outer : Lens V W) (inner : Lens U V)
    (hOuter : GetSet outer ∧ SetGet outer ∧ SetSet outer)
    (hInner : GetSet inner ∧ SetGet inner ∧ SetSet inner) :
    GetSet (compose outer inner) ∧ SetGet (compose outer inner) ∧
      SetSet (compose outer inner) := by
  obtain ⟨hogs, hosg, hoss⟩ := hOuter
  obtain ⟨higs, hisg, hiss⟩ := hInner
  refine ⟨fun w => ?_, fun r w => ?_, fun r₁ r₂ w => ?_⟩
  · show outer.set (inner.set (inner.get (outer.get w)) (outer.get w)) w = w
    rw [higs, hogs]
  · show inner.get (outer.get (outer.set (inner.set r (outer.get w)) w)) = r
    rw [hosg, hisg]
  · show outer.set (inner.set r₂ (outer.get (outer.set (inner.set r₁ (outer.get w)) w)))
        (outer.set (inner.set r₁ (outer.get w)) w) =
      outer.set (inner.set r₂ (outer.get w)) w
    rw [hosg, hiss, hoss]

/-- Witness for claim C3: the law-preservation theorem applied to the concrete
lawful lenses `nameLens` and `firstNameLens`. -/
theorem compose_preserves_laws_witness :
    GetSet (compose nameLens firstNameLens) ∧ SetGet (compose nameLens firstNameLens) ∧
      SetSet (compose nameLens firstNameLens) :=
  compose_preserves_laws nameLens firstNameLens
    ⟨fun _ => rfl, fun _ _ => rfl, fun _ _ _ => rfl⟩
    ⟨fun _ => rfl, fun _ _ => rfl, fun _ _ _ => rfl⟩

/-- Claim C4: lens composition is associative — for composable lenses `A`, `B`,
`C`, the lenses `compose (compose A B) C` and `compose A (compose B C)` agree
observationally: their `get` functions agree on every whole and their `set`
functions agree on every focus/whole pair. -/
theorem compose_assoc {T U V W : Type} (A : Lens V W) (B : Lens U V) (C : Lens T U) :
    (∀ w : W, (compose (compose A B) C).get w = (compose A (compose B C)).get w) ∧
      (∀ (t : T) (w : W),
        (compose (compose A B) C).set t w = (compose A (compose B C)).set t w) :=
  ⟨fun _ => rfl, fun _ _ => rfl⟩

/-- Claim C5: each concrete field-access lens of the source — `temperatureLens`
over `StandardWeather`, `nameLens` over `Identity`, `firstNameLens` over
`Name` — satisfies the three lens laws (GetSet, SetGet, SetSet) for all of its
inputs, with structural equality. -/
theorem concrete_lenses_satisfy_laws :
    (GetSet temperatureLens ∧ SetGet temperatureLens ∧ SetSet temperatureLens) ∧
      (GetSet nameLens ∧ SetGet nameLens ∧ SetSet nameLens) ∧
      (GetSet firstNameLens ∧ SetGet firstNameLens ∧ SetSet firstNameLens) :=
  ⟨⟨fun _ => rfl, fun _ _ => rfl, fun _ _ _ => rfl⟩,
    ⟨fun _ => rfl, fun _ _ => rfl, fun _ _ _ => rfl⟩,
    ⟨fun _ => rfl, fun _ _ => rfl, fun _ _ _ => rfl⟩⟩

/-- Claim C6: for `firstNameFromIdentityLens = compose nameLens firstNameLens`
and the whole whose name is `{ firstName := "Francis", lastName := "Underwood" }`,
`get` returns `"Francis"`, and `set "Frank"` returns a whole whose name is
`{ firstName := "Frank", lastName := "Underwood" }` while `dateOfBirth` equals
that of the original whole.  (The original whole is unchanged by construction:
the embedding is of pure functions, and the source setters build new objects by
spread without mutating their arguments.) -/
theorem houseOfCards_scenario :
    firstNameFromIdentityLens.get identity = "Francis" ∧
      firstNameFromIdentityLens.set "Frank" identity =
        { name := { firstName := "Frank", lastName := "Underwood" }
          dateOfBirth := identity.dateOfBirth } ∧
      (firstNameFromIdentityLens.set "Frank" identity).dateOfBirth = identity.dateOfBirth :=
  ⟨rfl, rfl, rfl⟩

/-- Claim C7: for `fahrenheitTemperatureLens =
compose celciusTemperatureLens fahrenheitToCelciusLens` applied to the whole
`{ cTemperature := 0, wind := 0 }`, `get` returns `32` and `set 50` returns
`{ cTemperature := 10, wind := 0 }`. -/
theorem fahrenheit_scenario :
    fahrenheitTemperatureLens.get standardWeather = 32 ∧
      fahrenheitTemperatureLens.set 50 standardWeather =
        { cTemperature := 10, wind := 0 } := by
  constructor
  · show jsRound ((0 : ℚ) * 9 / 5 + 32) = 32
    unfold jsRound
    norm_num
  · have h : fahrenheitToCelcius (50 : ℚ) = 10 := by
      unfold fahrenheitToCelcius jsRound
      norm_num
    show setTemperature (fahrenheitToCelcius (50 : ℚ)) standardWeather =
      { cTemperature := 10, wind := 0 }
    rw [h]
    rfl

/-- Claim C8: the composed rounding lens `fahrenheitTemperatureLens` satisfies
the SetGet law within a tolerance of ±1: for every integer Fahrenheit value `f`
and every whole `w`, `|composed.get (composed.set f w) - f| ≤ 1`. -/
theorem fahrenheit_setGet_tolerance (f : ℤ) (w : StandardWeather) :
    |fahrenheitTemperatureLens.get (fahrenheitTemperatureLens.set (f : ℚ) w) - (f : ℚ)| ≤ 1 := by
  show |celciusToFahrenheit (fahrenheitToCelcius (f : ℚ)) - (f : ℚ)| ≤ 1
  unfold celciusToFahrenheit fahrenheitToCelcius jsRound
  have hc1 := Int.sub_one_lt_floor (((f : ℚ) - 32) * 5 / 9 + 1/2)
  have hc2 := Int.floor_le (((f : ℚ) - 32) * 5 / 9 + 1/2)
  have hr1 := Int.sub_one_lt_floor
    (((⌊((f : ℚ) - 32) * 5 / 9 + 1/2⌋ : ℤ) : ℚ) * 9 / 5 + 32 + 1/2)
  have hr2 := Int.floor_le
    (((⌊((f : ℚ) - 32) * 5 / 9 + 1/2⌋ : ℤ) : ℚ) * 9 / 5 + 32 + 1/2)
  have hlow : (f : ℚ) - 7/5 <
      ((⌊((⌊((f : ℚ) - 32) * 5 / 9 + 1/2⌋ : ℤ) : ℚ) * 9 / 5 + 32 + 1/2⌋ : ℤ) : ℚ) := by
    linarith
  have hhigh :
      ((⌊((⌊((f : ℚ) - 32) * 5 / 9 + 1/2⌋ : ℤ) : ℚ) * 9 / 5 + 32 + 1/2⌋ : ℤ) : ℚ) ≤
        (f : ℚ) + 7/5 := by
    linarith
  have hzlow : -1 ≤ ⌊((⌊((f : ℚ) - 32) * 5 / 9 + 1/2⌋ : ℤ) : ℚ) * 9 / 5 + 32 + 1/2⌋ - f := by
    have h2 : (-2 : ℤ) <
        ⌊((⌊((f : ℚ) - 32) * 5 / 9 + 1/2⌋ : ℤ) : ℚ) * 9 / 5 + 32 + 1/2⌋ - f := by
      have : (-2 : ℚ) <
          ((⌊((⌊((f : ℚ) - 32) * 5 / 9 + 1/2⌋ : ℤ) : ℚ) * 9 / 5 + 32 + 1/2⌋ : ℤ) : ℚ) -
            (f : ℚ) := by linarith
      exact_mod_cast this
    omega
  have hzhigh : ⌊((⌊((f : ℚ) - 32) * 5 / 9 + 1/2⌋ : ℤ) : ℚ) * 9 / 5 + 32 + 1/2⌋ - f ≤ 1 := by
    have h2 : ⌊((⌊((f : ℚ) - 32) * 5 / 9 + 1/2⌋ : ℤ) : ℚ) * 9 / 5 + 32 + 1/2⌋ - f < 2 := by
      have : ((⌊((⌊((f : ℚ) - 32) * 5 / 9 + 1/2⌋ : ℤ) : ℚ) * 9 / 5 + 32 + 1/2⌋ : ℤ) : ℚ) -
          (f : ℚ) < 2 := by linarith
      exact_mod_cast this
    omega
  rw [abs_le]
  constructor
  · exact_mod_cast hzlow
  · exact_mod_cast hzhigh

/-- Claim C9: the setters of the concrete lenses and of their compositions
leave the unfocused parts of the whole unchanged: `temperatureLens.set`
preserves `wind`, and `firstNameFromIdentityLens.set` preserves `dateOfBirth`
and `lastName`.  (The original whole itself being unchanged by the call is by
construction: the embedded setters, like the source's object spreads, build a
new value without mutating their arguments.) -/
theorem set_frame_conditions :
    (∀ (c : TemperatureInCelcius) (w : StandardWeather),
        (temperatureLens.set c w).wind = w.wind) ∧
      (∀ (f : FirstName) (i : Identity),
        (firstNameFromIdentityLens.set f i).dateOfBirth = i.dateOfBirth ∧
          (firstNameFromIdentityLens.set f i).name.lastName = i.name.lastName) :=
  ⟨fun _ _ => rfl, fun _ _ => ⟨rfl, rfl⟩⟩

/-- Claim C10: `fahrenheitToCelciusLens` satisfies the GetSet law exactly on
every integer Celsius whole `c`: `lens.set (lens.get c) c = c`, i.e.
`fahrenheitToCelcius (celciusToFahrenheit c) = c` with no tolerance. -/
theorem fahrenheitToCelciusLens_getSet_exact (c : ℤ) :
    fahrenheitToCelciusLens.set (fahrenheitToCelciusLens.get (c : ℚ)) (c : ℚ) = (c : ℚ) := by
  show fahrenheitToCelcius (celciusToFahrenheit (c : ℚ)) = (c : ℚ)
  unfold celciusToFahrenheit fahrenheitToCelcius jsRound
  have hm1 := Int.sub_one_lt_floor ((c : ℚ) * 9 / 5 + 32 + 1/2)
  have hm2 := Int.floor_le ((c : ℚ) * 9 / 5 + 32 + 1/2)
  have h : ⌊((⌊(c : ℚ) * 9 / 5 + 32 + 1/2⌋ : ℤ) : ℚ) * 5 / 9 - 32 * 5 / 9 + 1/2⌋ = c := by
    rw [Int.floor_eq_iff]
    constructor
    · linarith
    · linarith
  have hrw : (((⌊(c : ℚ) * 9 / 5 + 32 + 1/2⌋ : ℤ) : ℚ) - 32) * 5 / 9 + 1/2 =
      ((⌊(c : ℚ) * 9 / 5 + 32 + 1/2⌋ : ℤ) : ℚ) * 5 / 9 - 32 * 5 / 9 + 1/2 := by
    ring
  rw [hrw, h]

end Lenses
